import Mathlib

set_option maxHeartbeats 1000000

/-!
Verification development for the DockerView terminal monitor
(`src/monitor.py`, class `SystemMonitor`).  The Python source is shallowly
embedded: each method's data-flow is translated into an executable Lean
definition; external effects (the Docker client, `subprocess`, `curses`
input) are passed in as explicit parameters, and Python exceptions are
modelled with `Option`/`Except` values.
-/

/-- Outcome of `subprocess.run("sudo iptables-save | grep ...", check=True)`
inside `_get_host_port_from_iptables`: the pipeline completes with exit code
zero carrying its stdout, raises `CalledProcessError` on a nonzero exit
(grep found no matching line), or raises some other exception (the query
mechanism itself could not run). -/
inductive QueryOutcome where
  | ok (stdout : String)
  | calledProcessError
  | otherException
  deriving DecidableEq

/-- Characters of the literal `--dport` heading the regex
`--dport\s+(\d+)` applied to the pipeline output. -/
def dportPat : List Char := "--dport".data

/-- After the literal `--dport`, the regex requires at least one whitespace
character and then captures a maximal nonempty run of digits. -/
def matchDportAfter (l : List Char) : Option String :=
  let ws := l.takeWhile Char.isWhitespace
  if ws = [] then none
  else
    let rest := l.dropWhile Char.isWhitespace
    let digits := rest.takeWhile Char.isDigit
    if digits = [] then none else some (String.mk digits)

/-- Model of `re.search(r'--dport\s+(\d+)', output)`: try the pattern at
each position from the left, returning the first captured digit run. -/
def findDport : List Char → Option String
  | [] => none
  | c :: cs =>
    if dportPat.isPrefixOf (c :: cs) then
      match matchDportAfter ((c :: cs).drop dportPat.length) with
      | some s => some s
      | none => findDport cs
    else findDport cs

/-- Model of `SystemMonitor._get_host_port_from_iptables`.  The first
component is the returned string; the second records whether the
subprocess pipeline was invoked at all (the source issues no query when
either argument is falsy), which the spec's precondition clause talks
about.  A `CalledProcessError` (grep found nothing) is swallowed and falls
through to the final `return 'N/A'`; any other exception yields `'Error'`;
a completed query returns the first `--dport` capture of its output when
the output is non-empty, else falls through to `'N/A'`. -/
def get_host_port_from_iptables (container_ip container_i_port : String)
    (q : QueryOutcome) : String × Bool :=
  if container_ip = "" ∨ container_i_port = "" then ("N/A", false)
  else
    match q with
    | QueryOutcome.ok output =>
      if output ≠ "" then
        match findDport output.data with
        | some p => (p, true)
        | none => ("N/A", true)
      else ("N/A", true)
    | QueryOutcome.calledProcessError => ("N/A", true)
    | QueryOutcome.otherException => ("Error", true)

/-- Uptime rendering from `_get_container_uptime`: the elapsed whole
seconds are decomposed with Python `divmod` (floor division and modulus,
modelled by `Int.fdiv`/`Int.fmod`); a `d`/`h`/`m` part is appended when its
value is positive, and a seconds part exactly when the part list is still
empty and the seconds value is nonnegative; the parts are joined with no
separator. -/
def format_uptime (totalSeconds : Int) : String :=
  let days := Int.fdiv totalSeconds 86400
  let rem1 := Int.fmod totalSeconds 86400
  let hours := Int.fdiv rem1 3600
  let rem2 := Int.fmod rem1 3600
  let minutes := Int.fdiv rem2 60
  let seconds := Int.fmod rem2 60
  let parts : List String :=
    (if days > 0 then [ toString days ++ "d" ] else []) ++
    (if hours > 0 then [ toString hours ++ "h" ] else []) ++
    (if minutes > 0 then [ toString minutes ++ "m" ] else [])
  let parts2 := if parts = [] ∧ seconds ≥ 0 then [ toString seconds ++ "s" ] else parts
  String.join parts2

/-- Rendering target written from the spec's wording (§4.2): days, hours
and minutes in descending order, each omitted when zero, and the seconds
unit emitted exactly when no larger unit was emitted; each unit value is
the standard closed-form decomposition of the elapsed seconds. -/
def uptimeSpecRender (n : Int) : String :=
  let days := Int.fdiv n 86400
  let hours := Int.fdiv (Int.fmod n 86400) 3600
  let minutes := Int.fdiv (Int.fmod n 3600) 60
  let seconds := Int.fmod n 60
  String.join
    ((if days > 0 then [ toString days ++ "d" ] else []) ++
     (if hours > 0 then [ toString hours ++ "h" ] else []) ++
     (if minutes > 0 then [ toString minutes ++ "m" ] else []) ++
     (if ¬ days > 0 ∧ ¬ hours > 0 ∧ ¬ minutes > 0 then [ toString seconds ++ "s" ] else []))

/-- Model of `SystemMonitor._get_container_uptime`.  `startedAt` is the
parsed `State.StartedAt` timestamp in whole seconds; `none` models the
`KeyError`/`ValueError` caught by the method (missing attribute or a
timestamp `datetime.fromisoformat` rejects), which yields `'Error'`.
Non-running containers return `'N/A'` before the timestamp is touched. -/
def get_container_uptime (status : String) (startedAt : Option Int) (now : Int) : String :=
  if status = "running" then
    match startedAt with
    | some t => format_uptime (now - t)
    | none => "Error"
  else "N/A"

/-- Rendering of `f"{mem_usage_bytes / (1024**3):.2f}G"`: gigabytes with
two decimal places.  The float rounding is modelled by rounding the exact
rational half-up at the second decimal. -/
def formatMemGB (bytes : Nat) : String :=
  let centi := (bytes * 100 + 2 ^ 29) / 2 ^ 30
  toString (centi / 100) ++ "." ++
    (if centi % 100 < 10 then "0" else "") ++ toString (centi % 100) ++ "G"

/-- Model of `SystemMonitor._get_container_ram_stats`: a successful
non-streaming stats snapshot yields `memory_stats.usage` bytes; any
exception (common for non-running containers) is swallowed, keeping the
initial `'N/A'`. -/
def get_container_ram_stats (statsUsage : Option Nat) : String :=
  match statsUsage with
  | some b => formatMemGB b
  | none => "N/A"

/-- One entry of `attrs.NetworkSettings.Networks`: the network's
`IPAddress`, with a missing or empty (falsy) address modelled as `""`. -/
structure NetworkInfo where
  ipAddress : String
  deriving DecidableEq

/-- One element of a `Ports` binding list: `HostPort` is `none` when the
binding dictionary has no `HostPort` key (the source then substitutes
`'N/A'`). -/
structure PortBinding where
  hostPort : Option String
  deriving DecidableEq

/-- Inspection data for one container handle, as read by
`get_docker_containers` from `container.attrs` and the client.  A `Ports`
value of JSON `null` is modelled as the empty binding list (the source
treats both as falsy).  `startedAt = none` models an unparseable or
missing start timestamp; `statsUsage = none` a failing stats call;
`obj` stands for the opaque runtime handle. -/
structure ContainerData where
  shortId : String
  name : String
  status : String
  imageTags : List String
  imageShortId : String
  networks : List (String × NetworkInfo)
  portData : List (String × List PortBinding)
  startedAt : Option Int
  statsUsage : Option Nat
  obj : Nat
  deriving DecidableEq

/-- One display row, the dictionary appended per container by
`get_docker_containers`. -/
structure ContainerRecord where
  id : String
  name : String
  status : String
  image : String
  ports : String
  uptime : String
  ram : String
  obj : Nat
  deriving DecidableEq

/-- Step 1 of the record build: the first non-empty `IPAddress` among the
attached networks, with the initial `'N/A'` kept when none is found. -/
def firstIP : List (String × NetworkInfo) → String
  | [] => "N/A"
  | (_, ni) :: rest => if ni.ipAddress ≠ "" then ni.ipAddress else firstIP rest

/-- Python `container_port_key.split('/')[0]`: the part of the key before
the first slash (the whole key when it has no slash). -/
def splitHead (s : String) : String :=
  String.mk (s.data.takeWhile (fun c => c ≠ '/'))

/-- Steps 2-4 of the record build for one `Ports` entry: the container-side
port is the key before the `/`; a runtime-reported host port is preferred;
otherwise the iptables fallback is consulted (its outcome supplied by
`natQ`); the entry renders `"host->container"` whenever the host port is
anything other than `'N/A'`, and the bare container port otherwise. -/
def formatPortEntry (natQ : String → String → QueryOutcome) (ipAddr : String)
    (entry : String × List PortBinding) : String :=
  let container_i_port := splitHead entry.1
  let fromRuntime : String :=
    match entry.2 with
    | [] => "N/A"
    | b :: _ =>
      match b.hostPort with
      | some h => h
      | none => "N/A"
  let host_port_num :=
    if fromRuntime = "N/A" then
      (get_host_port_from_iptables ipAddr container_i_port (natQ ipAddr container_i_port)).1
    else fromRuntime
  if host_port_num ≠ "N/A" then host_port_num ++ "->" ++ container_i_port
  else container_i_port

/-- The per-container body of the `get_docker_containers` loop: assemble
one `ContainerRecord` from one inspection snapshot, joining the port
entries with `","` and keeping `'N/A'` when no ports are declared. -/
def buildRecord (natQ : String → String → QueryOutcome) (now : Int)
    (c : ContainerData) : ContainerRecord :=
  let ipAddr := firstIP c.networks
  let ports :=
    if c.portData = [] then "N/A"
    else String.intercalate "," (c.portData.map (formatPortEntry natQ ipAddr))
  { id := c.shortId
    name := c.name
    status := c.status
    image :=
      match c.imageTags with
      | t :: _ => t
      | [] => c.imageShortId
    ports := ports
    uptime := get_container_uptime c.status c.startedAt now
    ram := get_container_ram_stats c.statsUsage
    obj := c.obj }

/-- Lexicographic comparison of character lists by code point: skip equal
heads, then compare the first differing characters.  This is the order
Python uses to compare strings. -/
def charListLe : List Char → List Char → Bool
  | [], _ => true
  | _ :: _, [] => false
  | a :: as, b :: bs =>
    if a = b then charListLe as bs
    else decide (a.toNat < b.toNat)

/-- Python string comparison `a <= b` (lexicographic by code point), the
key order of `sorted(containers, key=lambda c: c['name'])`. -/
def strLe (a b : String) : Bool := charListLe a.data b.data

/-- The final `sorted(containers, key=lambda c: c['name'])`. -/
def sortByName (l : List ContainerRecord) : List ContainerRecord :=
  List.insertionSort (fun a b => strLe a.name b.name = true) l

/-- Model of `SystemMonitor.get_docker_containers`.  `dockerError` is the
standing `self.docker_error`; `enum` the outcome of enumerating and
inspecting all containers.  The result carries the new standing error, the
returned list, and whether the runtime was contacted: a standing error
short-circuits to the empty list without contact; an enumeration failure
sets a standing error and returns the empty list; success returns the
records sorted by name. -/
def getDockerContainersModel (natQ : String → String → QueryOutcome) (now : Int)
    (dockerError : Option String) (enum : Except String (List ContainerData)) :
    Option String × List ContainerRecord × Bool :=
  match dockerError with
  | some e => (some e, [], false)
  | none =>
    match enum with
    | Except.error e => (some ("Docker error: " ++ e), [], true)
    | Except.ok cs => (none, sortByName (cs.map (buildRecord natQ now)), true)

/-- The mutable `SystemMonitor` fields driven by `_app_loop`, together with
the loop's local `containers` list. -/
structure LoopState where
  selectedIndex : Int
  scrollPos : Int
  statusMessage : String
  dockerError : Option String
  containers : List ContainerRecord
  deriving DecidableEq

/-- The keys `_app_loop` distinguishes: arrows, the action letters, the
`-1` poll timeout, and any other key. -/
inductive KeyEvent where
  | up | down | keyQ | keyU | keyS | keyX | keyR | keyD | keyN | timeout | other
  deriving DecidableEq

/-- The five action names `_perform_action` is called with. -/
inductive ActionName where
  | start | stop | restart | rename | remove
  deriving DecidableEq

/-- External inputs consumed by one iteration of the `while True` loop:
the polled key, the container runtime (NAT query behaviour, clock,
enumeration outcome), the outcome of a lifecycle call, the text typed into
the confirmation and rename prompts, and the terminal height. -/
structure TickEnv where
  key : KeyEvent
  natQ : String → String → QueryOutcome
  now : Int
  enum : Except String (List ContainerData)
  actionOutcome : Except String Unit
  confirmInput : String
  renameInput : String
  height : Int

/-- Python list indexing `l[i]`: negative indices count from the end; an
index outside the list raises `IndexError`, modelled as `none`. -/
def pyIndex {α : Type} (l : List α) (i : Int) : Option α :=
  let j := if i < 0 then (l.length : Int) + i else i
  if 0 ≤ j then l.get? j.toNat else none

/-- Model of `_confirm_action`: the typed reply, stripped and lowercased,
must be `yes` or `y`. -/
def confirm_action (userInput : String) : Bool :=
  let v := userInput.trim.toLower
  v == "yes" || v == "y"

/-- Auxiliary scan for `containsSub`: does the needle occur as a
contiguous run at some position of the haystack? -/
def listContains (needle : List Char) : List Char → Bool
  | [] => needle.isEmpty
  | c :: cs => needle.isPrefixOf (c :: cs) || listContains needle cs

/-- Python substring membership `sub in s`. -/
def containsSub (sub s : String) : Bool :=
  listContains sub.data s.data

/-- Model of `SystemMonitor._perform_action`.  With an empty list or a
standing docker error it returns untouched; otherwise it indexes the
selected record (an out-of-range index raises, modelled as
`Except.error`), then issues the lifecycle call whose outcome sets a
one-shot success message, any raised cause being caught into an
`Error: ...` message. -/
def perform_action (st : LoopState) (action : ActionName)
    (outcome : Except String Unit) (newName : String) : Except String LoopState :=
  if st.containers = [] ∨ st.dockerError.isSome then Except.ok st
  else
    match pyIndex st.containers st.selectedIndex with
    | none => Except.error "IndexError"
    | some c =>
      match action, outcome with
      | ActionName.rename, Except.ok _ =>
        Except.ok { st with statusMessage :=
          "Successfully renamed " ++ c.name ++ " to " ++ newName ++ "." }
      | ActionName.remove, Except.ok _ =>
        Except.ok { st with statusMessage :=
          "Successfully removed container " ++ c.name ++ "." }
      | ActionName.start, Except.ok _ =>
        Except.ok { st with statusMessage :=
          "Successfully sent 'start' command to " ++ c.name ++ "." }
      | ActionName.stop, Except.ok _ =>
        Except.ok { st with statusMessage :=
          "Successfully sent 'stop' command to " ++ c.name ++ "." }
      | ActionName.restart, Except.ok _ =>
        Except.ok { st with statusMessage :=
          "Successfully sent 'restart' command to " ++ c.name ++ "." }
      | _, Except.error e =>
        Except.ok { st with statusMessage := "Error: " ++ e }

/-- The two scroll adjustments of `_draw_container_list`: pull
`scroll_pos` up to the selection, then push it down so the selection lies
within the `list_height` visible rows. -/
def clampScroll (selectedIndex scrollPos listHeight : Int) : Int :=
  let sp1 := if selectedIndex < scrollPos then selectedIndex else scrollPos
  if selectedIndex ≥ sp1 + listHeight then selectedIndex - listHeight + 1 else sp1

/-- Model of `SystemMonitor._draw_container_list` restricted to its effect
on state: with a standing error or an empty list it returns before the
scroll adjustment; otherwise it applies the scroll clamp with
`list_height = height - 12`. -/
def draw_container_list (st : LoopState) (height : Int) : LoopState :=
  if st.dockerError.isSome then st
  else if st.containers = [] then st
  else { st with scrollPos := clampScroll st.selectedIndex st.scrollPos (height - 12) }

/-- Model of `SystemMonitor._draw_footer` restricted to its effect on
state: after painting a non-empty status message it clears it when the
message contains `Successfully` or `Error`. -/
def draw_footer (st : LoopState) : LoopState :=
  if st.statusMessage = "" then st
  else if containsSub "Successfully" st.statusMessage || containsSub "Error" st.statusMessage then
    { st with statusMessage := "" }
  else st

/-- The `self.get_docker_containers()` call as it updates loop state:
standing error and `containers` are replaced by the call's results. -/
def refreshState (st : LoopState) (env : TickEnv) : LoopState :=
  let r := getDockerContainersModel env.natQ env.now st.dockerError env.enum
  { st with dockerError := r.1, containers := r.2.1 }

/-- The key dispatch of `_app_loop` (everything between `getch` and the
drawing calls), including the implicit refresh on a `-1` poll timeout.
The `keyQ` arm is unreachable (the loop breaks first) and returns the
state unchanged. -/
def key_transition (st : LoopState) (env : TickEnv) : Except String LoopState :=
  match env.key with
  | KeyEvent.keyQ => Except.ok st
  | KeyEvent.up =>
    Except.ok { st with selectedIndex := max 0 (st.selectedIndex - 1) }
  | KeyEvent.down =>
    if st.containers = [] then Except.ok st
    else
      let newIdx := min ((st.containers.length : Int) - 1) (st.selectedIndex + 1)
      Except.ok { st with selectedIndex := newIdx }
  | KeyEvent.keyU =>
    Except.ok { refreshState st env with statusMessage := "Container list updated." }
  | KeyEvent.keyS => perform_action st ActionName.start env.actionOutcome ""
  | KeyEvent.keyX =>
    if st.containers = [] then Except.ok st
    else
      let st1 := { st with statusMessage := "Stopping container, this may take a minute..." }
      let st2 := draw_footer st1
      perform_action st2 ActionName.stop env.actionOutcome ""
  | KeyEvent.keyR => perform_action st ActionName.restart env.actionOutcome ""
  | KeyEvent.keyD =>
    if st.containers = [] then Except.ok st
    else
      match pyIndex st.containers st.selectedIndex with
      | none => Except.error "IndexError"
      | some _ =>
        if confirm_action env.confirmInput then
          perform_action st ActionName.remove env.actionOutcome ""
        else Except.ok st
  | KeyEvent.keyN =>
    if st.containers = [] then Except.ok st
    else
      match pyIndex st.containers st.selectedIndex with
      | none => Except.error "IndexError"
      | some _ =>
        let newName := env.renameInput.trim
        if newName ≠ "" then perform_action st ActionName.rename env.actionOutcome newName
        else Except.ok st
  | KeyEvent.timeout => Except.ok (refreshState st env)
  | KeyEvent.other => Except.ok st

/-- One iteration of the `while True` loop in `_app_loop`: `q` breaks out;
otherwise the key dispatch runs and, unless it raised, the frame is drawn
(container list then footer, the two state-touching draw calls).  The
result is `none` on quit, `some` of the next state, or the uncaught
exception. -/
def loop_step (st : LoopState) (env : TickEnv) : Except String (Option LoopState) :=
  if env.key = KeyEvent.keyQ then Except.ok none
  else
    match key_transition st env with
    | Except.error e => Except.error e
    | Except.ok st1 =>
      Except.ok (some (draw_footer (draw_container_list st1 env.height)))

/-- Iterated loop steps over a list of tick inputs: stops at quit, at the
end of the inputs, or at the first uncaught exception. -/
def run_loop (st : LoopState) : List TickEnv → Except String (Option LoopState)
  | [] => Except.ok (some st)
  | env :: rest =>
    match loop_step st env with
    | Except.ok (some st1) => run_loop st1 rest
    | Except.ok none => Except.ok none
    | Except.error e => Except.error e

/-- The state entering the loop: `__init__` (selection 0, scroll 0, empty
status, a standing error when the initial ping failed) followed by the
initial `containers = self.get_docker_containers()` of `_app_loop`. -/
def app_init (pingError : Option String) (natQ : String → String → QueryOutcome)
    (now : Int) (enum : Except String (List ContainerData)) : LoopState :=
  let r := getDockerContainersModel natQ now pingError enum
  { selectedIndex := 0
    scrollPos := 0
    statusMessage := ""
    dockerError := r.1
    containers := r.2.1 }

/-- The spec's C9 scenario container: declared port `80/tcp` with no host
binding, internal IP `172.17.0.5` on its only network. -/
def web1Data : ContainerData :=
  { shortId := "abc123", name := "web-1", status := "running",
    imageTags := ["nginx:latest"], imageShortId := "sha1234",
    networks := [("bridge", { ipAddress := "172.17.0.5" })],
    portData := [("80/tcp", [])],
    startedAt := some 0, statsUsage := none, obj := 0 }

/-- The C9 scenario NAT table: the query for `172.17.0.5:80` returns the
Docker DNAT rule whose port-match clause carries host port 54772. -/
def web1NatQ : String → String → QueryOutcome := fun ip port =>
  if ip = "172.17.0.5" ∧ port = "80" then
    QueryOutcome.ok
      "-A DOCKER ! -i docker0 -p tcp -m tcp --dport 54772 -j DNAT --to-destination 172.17.0.5:80"
  else QueryOutcome.calledProcessError

/-- The NAT query behaviour used by the event-loop scenarios: grep never
finds a matching rule. -/
def neverNatQ : String → String → QueryOutcome := fun _ _ => QueryOutcome.calledProcessError

/-- A minimal exited container used in the event-loop scenarios. -/
def mkData (nm : String) (k : Nat) : ContainerData :=
  { shortId := nm, name := nm, status := "exited", imageTags := [],
    imageShortId := "img", networks := [], portData := [],
    startedAt := none, statsUsage := none, obj := k }

/-- The loop state with no containers and no standing error. -/
def emptyLoopState : LoopState :=
  { selectedIndex := 0, scrollPos := 0, statusMessage := "", dockerError := none,
    containers := [] }

/-- A tick that delivers the up-arrow key. -/
def upEnv : TickEnv :=
  { key := KeyEvent.up, natQ := neverNatQ, now := 0, enum := Except.ok [],
    actionOutcome := Except.ok (), confirmInput := "", renameInput := "", height := 20 }

/-- A session whose startup ping failed. -/
def c5ErrState : LoopState :=
  { selectedIndex := 0, scrollPos := 0, statusMessage := "",
    dockerError := some "Docker not available: ping", containers := [] }

/-- A poll-timeout tick (implicit refresh) in which the runtime would
enumerate one container if it were consulted. -/
def c5TimeoutEnv : TickEnv :=
  { key := KeyEvent.timeout, natQ := neverNatQ, now := 0,
    enum := Except.ok [ mkData "a" 1 ], actionOutcome := Except.ok (),
    confirmInput := "", renameInput := "", height := 20 }

/-- A browsing state whose selection lies below the one-row viewport of a
13-row terminal. -/
def c7State : LoopState :=
  { selectedIndex := 5, scrollPos := 0, statusMessage := "", dockerError := none,
    containers := List.replicate 6
      { id := "cid", name := "c", status := "exited", image := "img",
        ports := "N/A", uptime := "N/A", ram := "N/A", obj := 0 } }

/-- A browsing state reached with five containers and the selection on the
last of them. -/
def c4State : LoopState :=
  { selectedIndex := 4, scrollPos := 0, statusMessage := "", dockerError := none,
    containers := (getDockerContainersModel neverNatQ 0 none (Except.ok
      [ mkData "a" 1, mkData "b" 2, mkData "c" 3, mkData "d" 4, mkData "e" 5 ])).2.1 }

/-- A manual-refresh tick (`u`) in which the runtime now reports only two
containers. -/
def c4Env : TickEnv :=
  { key := KeyEvent.keyU, natQ := neverNatQ, now := 0,
    enum := Except.ok [ mkData "a" 1, mkData "b" 2 ],
    actionOutcome := Except.ok (), confirmInput := "", renameInput := "", height := 20 }

/-- A tick that delivers the down-arrow key. -/
def downEnv : TickEnv := { upEnv with key := KeyEvent.down }

/-- Session start with a healthy runtime that enumerates five
containers. -/
def c6Init : LoopState :=
  app_init none neverNatQ 0 (Except.ok
    [ mkData "a" 1, mkData "b" 2, mkData "c" 3, mkData "d" 4, mkData "e" 5 ])

/-- A manual-refresh tick after which only one container remains. -/
def c6ShrinkEnv : TickEnv := { upEnv with key := KeyEvent.keyU, enum := Except.ok [ mkData "a" 1 ] }

/-- A tick that presses the start-action key `s`. -/
def c6StartEnv : TickEnv := { upEnv with key := KeyEvent.keyS }

/-! ## Theorems -/

/-- If a `takeWhile` result starts with an element, that element satisfies
the predicate. -/
theorem takeWhile_head_prop {α : Type} (p : α → Bool) (l : List α) (a : α) (t : List α)
    (h : l.takeWhile p = a :: t) : p a = true := by
  cases l with
  | nil => simp at h
  | cons x xs =>
    rw [List.takeWhile_cons] at h
    by_cases hx : p x = true
    · rw [if_pos hx] at h
      cases h
      exact hx
    · rw [if_neg hx] at h
      cases h

/-- Anything `matchDportAfter` captures is a nonempty string starting with
a digit. -/
theorem matchDportAfter_digit (l : List Char) (s : String)
    (h : matchDportAfter l = some s) : ∃ c cs, s.data = c :: cs ∧ c.isDigit = true := by
  simp only [matchDportAfter] at h
  by_cases hws : l.takeWhile Char.isWhitespace = []
  · simp [hws] at h
  · rw [if_neg hws] at h
    cases hdig : (l.dropWhile Char.isWhitespace).takeWhile Char.isDigit with
    | nil => rw [hdig] at h; simp at h
    | cons c cs =>
      rw [hdig] at h
      simp at h
      refine ⟨c, cs, ?_, ?_⟩
      · rw [← h]
      · exact takeWhile_head_prop Char.isDigit _ c cs hdig

/-- Anything `findDport` captures is a nonempty string starting with a
digit. -/
theorem findDport_digit : ∀ (l : List Char) (s : String), findDport l = some s →
    ∃ c cs, s.data = c :: cs ∧ c.isDigit = true := by
  intro l
  induction l with
  | nil => intro s h; simp [findDport] at h
  | cons c cs ih =>
    intro s h
    rw [findDport] at h
    by_cases hp : dportPat.isPrefixOf (c :: cs) = true
    · rw [if_pos hp] at h
      cases hm : matchDportAfter ((c :: cs).drop dportPat.length) with
      | some s2 =>
        rw [hm] at h
        cases h
        exact matchDportAfter_digit _ _ hm
      | none =>
        rw [hm] at h
        exact ih s h
    · rw [if_neg hp] at h
      exact ih s h

/-- A `findDport` capture is never the string `Error`. -/
theorem findDport_ne_error (l : List Char) (s : String) (h : findDport l = some s) :
    s ≠ "Error" := by
  obtain ⟨c, cs, hdata, hdig⟩ := findDport_digit l s h
  intro hs
  rw [hs] at hdata
  have hc : c = 'E' := by
    have : ('E' : Char) :: "rror".data = c :: cs := by
      rw [← hdata]
    cases this
    rfl
  rw [hc] at hdig
  exact absurd hdig (by decide)

/-- C1: for every running container with a parseable start timestamp and a
nonnegative elapsed whole-second count, the uptime string equals the
spec's descending-unit rendering (days, hours, minutes with zero units
omitted, seconds only when no larger unit was emitted); elapsed 3665s
renders `1h1m`, 59s renders `59s`, 0s renders `0s`; and every non-running
container reports `N/A`. -/
theorem c1_uptime_rendering :
    (∀ n : Int, 0 ≤ n → format_uptime n = uptimeSpecRender n) ∧
    format_uptime 3665 = "1h1m" ∧ format_uptime 59 = "59s" ∧ format_uptime 0 = "0s" ∧
    (∀ (status : String) (startedAt : Option Int) (now : Int), status ≠ "running" →
      get_container_uptime status startedAt now = "N/A") ∧
    (∀ t now : Int, get_container_uptime "running" (some t) now = format_uptime (now - t)) := by
  refine ⟨?_, rfl, rfl, rfl, ?_, ?_⟩
  · intro n hn
    obtain ⟨m, rfl⟩ := Int.eq_ofNat_of_zero_le hn
    simp only [format_uptime, uptimeSpecRender]
    have e1 : Int.fdiv (m : Int) 86400 = ((m / 86400 : Nat) : Int) := (Int.ofNat_fdiv m 86400).symm
    have e2 : Int.fmod (m : Int) 86400 = ((m % 86400 : Nat) : Int) := (Int.ofNat_fmod m 86400).symm
    have e3 : Int.fdiv ((m % 86400 : Nat) : Int) 3600 = ((m % 86400 / 3600 : Nat) : Int) :=
      (Int.ofNat_fdiv (m % 86400) 3600).symm
    have e4 : Int.fmod ((m % 86400 : Nat) : Int) 3600 = ((m % 86400 % 3600 : Nat) : Int) :=
      (Int.ofNat_fmod (m % 86400) 3600).symm
    have e5 : Int.fdiv ((m % 86400 % 3600 : Nat) : Int) 60 = ((m % 86400 % 3600 / 60 : Nat) : Int) :=
      (Int.ofNat_fdiv (m % 86400 % 3600) 60).symm
    have e6 : Int.fmod ((m % 86400 % 3600 : Nat) : Int) 60 = ((m % 86400 % 3600 % 60 : Nat) : Int) :=
      (Int.ofNat_fmod (m % 86400 % 3600) 60).symm
    have e7 : Int.fmod (m : Int) 3600 = ((m % 3600 : Nat) : Int) := (Int.ofNat_fmod m 3600).symm
    have e8 : Int.fdiv ((m % 3600 : Nat) : Int) 60 = ((m % 3600 / 60 : Nat) : Int) :=
      (Int.ofNat_fdiv (m % 3600) 60).symm
    have e9 : Int.fmod (m : Int) 60 = ((m % 60 : Nat) : Int) := (Int.ofNat_fmod m 60).symm
    rw [e1, e2, e3, e4, e5, e6, e7, e8, e9]
    have k1 : m % 86400 % 3600 = m % 3600 := by omega
    have k2 : m % 3600 % 60 = m % 60 := by omega
    rw [k1, k2]
    have ts : ∀ k : Nat, toString ((k : Nat) : Int) = toString k := fun k => rfl
    simp only [ts, gt_iff_lt, Int.ofNat_pos, ge_iff_le]
    have hs : (0 : Int) ≤ (m : Int) % 60 := Int.emod_nonneg _ (by norm_num)
    by_cases hd : 0 < m / 86400 <;> by_cases hh : 0 < m % 86400 / 3600 <;>
      by_cases hm : 0 < m % 3600 / 60 <;>
      simp [hd, hh, hm, hs, String.join, Nat.cast_nonneg]
  · intro status startedAt now h
    simp [get_container_uptime, h]
  · intro t now
    rfl

/-- Witness for C1: the general rendering agreement applied at one day,
five minutes of elapsed time, and the non-running clause applied to an
exited container. -/
theorem c1_uptime_rendering_witness :
    format_uptime 86700 = uptimeSpecRender 86700 ∧
    get_container_uptime "exited" none 0 = "N/A" :=
  ⟨c1_uptime_rendering.1 86700 (by decide),
   c1_uptime_rendering.2.2.2.2.1 "exited" none 0 (by decide)⟩

/-- C2 counterexample: with both inputs non-empty and a query that runs to
completion but produces malformed output (a DNAT line that matches the
grep yet carries no `--dport` clause, so the port extraction fails), the
resolver returns `N/A`, not the `Error` that the claim's "if and only if
the query mechanism itself fails (permission error, tool missing,
malformed output)" clause demands. -/
theorem c2_counterexample :
    findDport ("-A PREROUTING -d 203.0.113.7/32 -j DNAT --to-destination 172.17.0.5:80").data
      = none ∧
    get_host_port_from_iptables "172.17.0.5" "80"
      (QueryOutcome.ok "-A PREROUTING -d 203.0.113.7/32 -j DNAT --to-destination 172.17.0.5:80")
      = ("N/A", true) :=
  ⟨rfl, rfl⟩

/-- C2 amended: with both inputs non-empty the query is issued, and the
resolver returns `Error` exactly when the subprocess raises an unexpected
exception; a query that completes yields `N/A` both when grep exits
without a match and when the output lacks a `--dport` clause; with an
empty input it returns `N/A` without issuing any query. -/
theorem c2_amended (ip port : String) (q : QueryOutcome)
    (hip : ip ≠ "") (hport : port ≠ "") :
    (get_host_port_from_iptables ip port q).2 = true ∧
    ((get_host_port_from_iptables ip port q).1 = "Error" ↔ q = QueryOutcome.otherException) ∧
    (q = QueryOutcome.calledProcessError → (get_host_port_from_iptables ip port q).1 = "N/A") ∧
    (∀ out, q = QueryOutcome.ok out → findDport out.data = none →
      (get_host_port_from_iptables ip port q).1 = "N/A") ∧
    (∀ ip2 port2 : String, ip2 = "" ∨ port2 = "" →
      get_host_port_from_iptables ip2 port2 q = ("N/A", false)) := by
  refine ⟨?_, ?_, ?_, ?_, ?_⟩
  · cases q with
    | ok out =>
      by_cases hout : out = ""
      · simp [get_host_port_from_iptables, hip, hport, hout]
      · cases hf : findDport out.data <;>
          simp [get_host_port_from_iptables, hip, hport, hout, hf]
    | calledProcessError => simp [get_host_port_from_iptables, hip, hport]
    | otherException => simp [get_host_port_from_iptables, hip, hport]
  · cases q with
    | ok out =>
      by_cases hout : out = ""
      · simp [get_host_port_from_iptables, hip, hport, hout]
      · cases hf : findDport out.data with
        | none => simp [get_host_port_from_iptables, hip, hport, hout, hf]
        | some p =>
          have hne := findDport_ne_error out.data p hf
          simp [get_host_port_from_iptables, hip, hport, hout, hf, hne]
    | calledProcessError => simp [get_host_port_from_iptables, hip, hport]
    | otherException => simp [get_host_port_from_iptables, hip, hport]
  · intro hq
    subst hq
    simp [get_host_port_from_iptables, hip, hport]
  · intro out hq hf
    subst hq
    by_cases hout : out = ""
    · simp [get_host_port_from_iptables, hip, hport, hout]
    · simp [get_host_port_from_iptables, hip, hport, hout, hf]
  · intro ip2 port2 hor
    unfold get_host_port_from_iptables
    rw [if_pos hor]

/-- Witness for C2 amended: a completed query with no matching rule at
concrete inputs yields `N/A`, and the query is issued. -/
theorem c2_amended_witness :
    (get_host_port_from_iptables "172.17.0.5" "80" QueryOutcome.calledProcessError).2 = true ∧
    (get_host_port_from_iptables "172.17.0.5" "80" QueryOutcome.calledProcessError).1 = "N/A" :=
  ⟨(c2_amended "172.17.0.5" "80" QueryOutcome.calledProcessError (by decide) (by decide)).1,
   (c2_amended "172.17.0.5" "80" QueryOutcome.calledProcessError (by decide) (by decide)).2.2.1 rfl⟩

/-- C3: a failure in one record-building sub-step degrades only its own
field of its own record: the refresh produces exactly one record per
enumerated container; a failing stats call changes only `ram` (to `N/A`);
a missing/unparseable start timestamp changes only `uptime` (to `Error`
when the container is running); and changing the NAT-query behaviour
changes nothing outside `ports`. -/
theorem c3_failure_isolation :
    (∀ (natQ : String → String → QueryOutcome) (now : Int) (cs : List ContainerData),
      ((getDockerContainersModel natQ now none (Except.ok cs)).2.1).length = cs.length) ∧
    (∀ (natQ : String → String → QueryOutcome) (now : Int) (c : ContainerData),
      (buildRecord natQ now { c with statsUsage := none }).ram = "N/A" ∧
      (buildRecord natQ now { c with statsUsage := none }).id = (buildRecord natQ now c).id ∧
      (buildRecord natQ now { c with statsUsage := none }).name = (buildRecord natQ now c).name ∧
      (buildRecord natQ now { c with statsUsage := none }).status = (buildRecord natQ now c).status ∧
      (buildRecord natQ now { c with statsUsage := none }).image = (buildRecord natQ now c).image ∧
      (buildRecord natQ now { c with statsUsage := none }).ports = (buildRecord natQ now c).ports ∧
      (buildRecord natQ now { c with statsUsage := none }).uptime = (buildRecord natQ now c).uptime) ∧
    (∀ (natQ : String → String → QueryOutcome) (now : Int) (c : ContainerData),
      (buildRecord natQ now { c with startedAt := none }).uptime =
        (if c.status = "running" then "Error" else "N/A") ∧
      (buildRecord natQ now { c with startedAt := none }).id = (buildRecord natQ now c).id ∧
      (buildRecord natQ now { c with startedAt := none }).name = (buildRecord natQ now c).name ∧
      (buildRecord natQ now { c with startedAt := none }).status = (buildRecord natQ now c).status ∧
      (buildRecord natQ now { c with startedAt := none }).image = (buildRecord natQ now c).image ∧
      (buildRecord natQ now { c with startedAt := none }).ports = (buildRecord natQ now c).ports ∧
      (buildRecord natQ now { c with startedAt := none }).ram = (buildRecord natQ now c).ram) ∧
    (∀ (natQ natQ2 : String → String → QueryOutcome) (now : Int) (c : ContainerData),
      (buildRecord natQ now c).id = (buildRecord natQ2 now c).id ∧
      (buildRecord natQ now c).name = (buildRecord natQ2 now c).name ∧
      (buildRecord natQ now c).status = (buildRecord natQ2 now c).status ∧
      (buildRecord natQ now c).image = (buildRecord natQ2 now c).image ∧
      (buildRecord natQ now c).uptime = (buildRecord natQ2 now c).uptime ∧
      (buildRecord natQ now c).ram = (buildRecord natQ2 now c).ram) := by
  refine ⟨?_, ?_, ?_, ?_⟩
  · intro natQ now cs
    simp [getDockerContainersModel, sortByName, List.length_insertionSort]
  · intro natQ now c
    exact ⟨rfl, rfl, rfl, rfl, rfl, rfl, rfl⟩
  · intro natQ now c
    exact ⟨rfl, rfl, rfl, rfl, rfl, rfl, rfl⟩
  · intro natQ natQ2 now c
    exact ⟨rfl, rfl, rfl, rfl, rfl, rfl⟩

/-- Characters with equal code points are equal. -/
theorem char_toNat_inj {a b : Char} (h : a.toNat = b.toNat) : a = b :=
  Char.ext (UInt32.ext h)

/-- `charListLe` is total. -/
theorem charListLe_total : ∀ a b : List Char, charListLe a b = true ∨ charListLe b a = true
  | [], _ => Or.inl rfl
  | _ :: _, [] => Or.inr rfl
  | a :: as, b :: bs => by
    by_cases hab : a = b
    · subst hab
      simp only [charListLe, if_pos rfl]
      exact charListLe_total as bs
    · have hba : ¬ b = a := fun h => hab h.symm
      simp only [charListLe, if_neg hab, if_neg hba, decide_eq_true_eq]
      rcases Nat.lt_or_ge a.toNat b.toNat with h | h
      · exact Or.inl h
      · rcases Nat.lt_or_ge b.toNat a.toNat with h2 | h2
        · exact Or.inr h2
        · exact absurd (char_toNat_inj (Nat.le_antisymm h2 h)) hab

/-- `charListLe` is transitive. -/
theorem charListLe_trans : ∀ a b c : List Char,
    charListLe a b = true → charListLe b c = true → charListLe a c = true
  | [], _, _, _, _ => rfl
  | _ :: _, [], _, h1, _ => by cases h1
  | _ :: _, _ :: _, [], _, h2 => by cases h2
  | a :: as, b :: bs, c :: cs, h1, h2 => by
    by_cases hab : a = b <;> by_cases hbc : b = c
    · subst hab
      subst hbc
      simp only [charListLe, if_pos rfl] at h1 h2 ⊢
      exact charListLe_trans as bs cs h1 h2
    · subst hab
      simp only [charListLe, if_pos rfl, if_neg hbc] at h2 ⊢
      exact h2
    · subst hbc
      simp only [charListLe, if_pos rfl, if_neg hab] at h1 ⊢
      exact h1
    · simp only [charListLe, if_neg hab, if_neg hbc, decide_eq_true_eq] at h1 h2
      have hac : ¬ a = c := by
        intro h
        rw [h] at h1
        omega
      simp only [charListLe, if_neg hac, decide_eq_true_eq]
      omega

/-- `charListLe` is antisymmetric. -/
theorem charListLe_antisymm : ∀ a b : List Char,
    charListLe a b = true → charListLe b a = true → a = b
  | [], [], _, _ => rfl
  | [], _ :: _, _, h2 => by cases h2
  | _ :: _, [], h1, _ => by cases h1
  | a :: as, b :: bs, h1, h2 => by
    by_cases hab : a = b
    · subst hab
      simp only [charListLe, if_pos rfl] at h1 h2
      rw [charListLe_antisymm as bs h1 h2]
    · have hba : ¬ b = a := fun h => hab h.symm
      simp only [charListLe, if_neg hab, if_neg hba, decide_eq_true_eq] at h1 h2
      omega

/-- The record names of a sorted build are pairwise nondecreasing in the
lexical order. -/
theorem sortByName_sorted (l : List ContainerRecord) :
    ((sortByName l).map ContainerRecord.name).Sorted (fun x y => strLe x y = true) := by
  haveI : IsTotal ContainerRecord (fun a b => strLe a.name b.name = true) :=
    ⟨fun a b => charListLe_total a.name.data b.name.data⟩
  haveI : IsTrans ContainerRecord (fun a b => strLe a.name b.name = true) :=
    ⟨fun a b c => charListLe_trans a.name.data b.name.data c.name.data⟩
  have h := List.sorted_insertionSort (fun a b : ContainerRecord => strLe a.name b.name = true) l
  exact List.Pairwise.map ContainerRecord.name (fun a b hab => hab) h

/-- `sortByName` is a permutation of its input. -/
theorem sortByName_perm (l : List ContainerRecord) : (sortByName l).Perm l :=
  List.perm_insertionSort _ l

/-- Building records preserves names positionally. -/
theorem map_name_build (natQ : String → String → QueryOutcome) (now : Int)
    (cs : List ContainerData) :
    (cs.map (buildRecord natQ now)).map ContainerRecord.name = cs.map ContainerData.name := by
  rw [List.map_map]
  exact List.map_congr_left (fun c _ => rfl)

/-- C8: every successful refresh returns records whose names are in
ascending order, and over the same multiset of container names two
rebuilds (with any clock or NAT behaviour) list names in the same
order. -/
theorem c8_sorted_inventory :
    (∀ (natQ : String → String → QueryOutcome) (now : Int) (cs : List ContainerData),
      ((getDockerContainersModel natQ now none (Except.ok cs)).2.1.map
        ContainerRecord.name).Sorted (fun x y => strLe x y = true)) ∧
    (∀ (natQ natQ2 : String → String → QueryOutcome) (now now2 : Int)
      (cs1 cs2 : List ContainerData),
      (cs1.map ContainerData.name).Perm (cs2.map ContainerData.name) →
      (getDockerContainersModel natQ now none (Except.ok cs1)).2.1.map ContainerRecord.name =
      (getDockerContainersModel natQ2 now2 none (Except.ok cs2)).2.1.map ContainerRecord.name) := by
  constructor
  · intro natQ now cs
    exact sortByName_sorted (cs.map (buildRecord natQ now))
  · intro natQ natQ2 now now2 cs1 cs2 hp
    have s1 := sortByName_sorted (cs1.map (buildRecord natQ now))
    have s2 := sortByName_sorted (cs2.map (buildRecord natQ2 now2))
    have q1 := (sortByName_perm (cs1.map (buildRecord natQ now))).map ContainerRecord.name
    have q2 := (sortByName_perm (cs2.map (buildRecord natQ2 now2))).map ContainerRecord.name
    rw [map_name_build] at q1 q2
    have p12 := (q1.trans hp).trans q2.symm
    haveI : IsAntisymm String (fun x y => strLe x y = true) :=
      ⟨fun a b h1 h2 => String.ext (charListLe_antisymm a.data b.data h1 h2)⟩
    exact List.eq_of_perm_of_sorted p12 s1 s2

/-- Witness for C8: two enumerations of the same two names, listed in
opposite orders and with different field data, are returned in the same
name order. -/
theorem c8_sorted_inventory_witness :
    (getDockerContainersModel (fun _ _ => QueryOutcome.calledProcessError) 0 none
      (Except.ok
        [{ shortId := "a1", name := "web", status := "running", imageTags := [],
           imageShortId := "i1", networks := [], portData := [], startedAt := some 0,
           statsUsage := none, obj := 1 },
         { shortId := "b2", name := "db", status := "exited", imageTags := [],
           imageShortId := "i2", networks := [], portData := [], startedAt := none,
           statsUsage := none, obj := 2 }])).2.1.map ContainerRecord.name =
    (getDockerContainersModel (fun _ _ => QueryOutcome.otherException) 5 none
      (Except.ok
        [{ shortId := "c3", name := "db", status := "running", imageTags := [],
           imageShortId := "i3", networks := [], portData := [], startedAt := some 1,
           statsUsage := some 7, obj := 3 },
         { shortId := "d4", name := "web", status := "paused", imageTags := [],
           imageShortId := "i4", networks := [], portData := [], startedAt := none,
           statsUsage := none, obj := 4 }])).2.1.map ContainerRecord.name :=
  (c8_sorted_inventory.2 (fun _ _ => QueryOutcome.calledProcessError)
    (fun _ _ => QueryOutcome.otherException) 0 5 _ _ (by decide))

/-- C9: in the scenario (container port 80 with no runtime host port,
internal IP 172.17.0.5, NAT rule 54772 -> 172.17.0.5:80) the ports field
is exactly `54772->80`; generally a runtime-reported host port `h`
formats as `h->c`, a NAT-resolved port `p` (anything but `N/A`) formats
as `p->c`, an unresolved port formats as the bare container port, and a
container with no declared ports reports `N/A`. -/
theorem c9_ports_formatting :
    (buildRecord web1NatQ 0 web1Data).ports = "54772->80" ∧
    (∀ (natQ : String → String → QueryOutcome) (ip key : String) (rest : List PortBinding)
      (h : String), h ≠ "N/A" →
      formatPortEntry natQ ip (key, { hostPort := some h } :: rest) =
        h ++ "->" ++ splitHead key) ∧
    (∀ (natQ : String → String → QueryOutcome) (ip key p : String),
      (get_host_port_from_iptables ip (splitHead key) (natQ ip (splitHead key))).1 = p →
      p ≠ "N/A" →
      formatPortEntry natQ ip (key, []) = p ++ "->" ++ splitHead key) ∧
    (∀ (natQ : String → String → QueryOutcome) (ip key : String),
      (get_host_port_from_iptables ip (splitHead key) (natQ ip (splitHead key))).1 = "N/A" →
      formatPortEntry natQ ip (key, []) = splitHead key) ∧
    (∀ (natQ : String → String → QueryOutcome) (now : Int) (c : ContainerData),
      c.portData = [] → (buildRecord natQ now c).ports = "N/A") := by
  refine ⟨by rfl, ?_, ?_, ?_, ?_⟩
  · intro natQ ip key rest h hh
    simp [formatPortEntry, hh]
  · intro natQ ip key p hp hne
    simp [formatPortEntry, hp, hne]
  · intro natQ ip key hp
    simp [formatPortEntry, hp]
  · intro natQ now c hc
    simp [buildRecord, hc]

/-- Witness for C9's general clauses at concrete inputs: a runtime host
port, a NAT-resolved port, an unresolved port, and a portless
container. -/
theorem c9_ports_formatting_witness :
    formatPortEntry web1NatQ "10.0.0.9" ("443/tcp", [ { hostPort := some "8443" } ]) =
      "8443" ++ "->" ++ splitHead "443/tcp" ∧
    formatPortEntry web1NatQ "172.17.0.5" ("80/tcp", []) =
      "54772" ++ "->" ++ splitHead "80/tcp" ∧
    formatPortEntry web1NatQ "10.0.0.9" ("25/tcp", []) = splitHead "25/tcp" ∧
    (buildRecord web1NatQ 3 { web1Data with portData := [] }).ports = "N/A" :=
  ⟨c9_ports_formatting.2.1 web1NatQ "10.0.0.9" "443/tcp" [] "8443" (by decide),
   c9_ports_formatting.2.2.1 web1NatQ "172.17.0.5" "80/tcp" "54772" (by rfl) (by decide),
   c9_ports_formatting.2.2.2.1 web1NatQ "10.0.0.9" "25/tcp" (by rfl),
   c9_ports_formatting.2.2.2.2 web1NatQ 3 { web1Data with portData := [] } rfl⟩

/-- A refresh with a standing error short-circuits: same error, empty
list, runtime not contacted. -/
theorem getDockerContainersModel_some (natQ : String → String → QueryOutcome)
    (now : Int) (e : String) (enum : Except String (List ContainerData)) :
    getDockerContainersModel natQ now (some e) enum = (some e, [], false) := rfl

/-- `pyIndex` succeeds on every in-range nonnegative index. -/
theorem pyIndex_isSome {α : Type} (l : List α) (i : Int)
    (h0 : 0 ≤ i) (hl : i < (l.length : Int)) : ∃ a, pyIndex l i = some a := by
  have hni : ¬ i < 0 := by omega
  simp only [pyIndex]
  rw [if_neg hni, if_pos h0]
  have hn : i.toNat < l.length := by omega
  exact ⟨l.get ⟨i.toNat, hn⟩, List.get?_eq_get hn⟩

/-- `_perform_action` never touches selection, scroll, the container list
or the standing error: on a normal return they are all unchanged. -/
theorem perform_action_fields (st : LoopState) (a : ActionName)
    (o : Except String Unit) (nn : String) (st' : LoopState)
    (h : perform_action st a o nn = Except.ok st') :
    st'.selectedIndex = st.selectedIndex ∧ st'.scrollPos = st.scrollPos ∧
    st'.containers = st.containers ∧ st'.dockerError = st.dockerError := by
  unfold perform_action at h
  split at h
  · cases h
    exact ⟨rfl, rfl, rfl, rfl⟩
  · split at h
    · cases h
    · split at h <;> (cases h; exact ⟨rfl, rfl, rfl, rfl⟩)

/-- `_perform_action` returns normally whenever the selection addresses
the current list (or the list is empty). -/
theorem perform_action_ok (st : LoopState) (a : ActionName)
    (o : Except String Unit) (nn : String)
    (hsel : 0 ≤ st.selectedIndex)
    (hin : st.containers = [] ∨ st.selectedIndex < (st.containers.length : Int)) :
    ∃ st', perform_action st a o nn = Except.ok st' := by
  unfold perform_action
  split
  · exact ⟨st, rfl⟩
  · rename_i hcond
    have hne : ¬ st.containers = [] := fun hc => hcond (Or.inl hc)
    have hlt : st.selectedIndex < (st.containers.length : Int) := hin.resolve_left hne
    obtain ⟨c, hc⟩ := pyIndex_isSome st.containers st.selectedIndex hsel hlt
    rw [hc]
    cases a <;> cases o <;> exact ⟨_, rfl⟩

/-- The state-facing effect of `_draw_container_list` never touches
selection, status, the list or the standing error. -/
theorem draw_container_list_fields (st : LoopState) (h : Int) :
    (draw_container_list st h).selectedIndex = st.selectedIndex ∧
    (draw_container_list st h).statusMessage = st.statusMessage ∧
    (draw_container_list st h).containers = st.containers ∧
    (draw_container_list st h).dockerError = st.dockerError := by
  unfold draw_container_list
  split
  · exact ⟨rfl, rfl, rfl, rfl⟩
  · split
    · exact ⟨rfl, rfl, rfl, rfl⟩
    · exact ⟨rfl, rfl, rfl, rfl⟩

/-- The scroll clamp in `_draw_container_list` preserves nonnegativity of
the scroll offset. -/
theorem clampScroll_nonneg (sel sp lh : Int) (h1 : 0 ≤ sel) (h2 : 0 ≤ sp) :
    0 ≤ clampScroll sel sp lh := by
  simp only [clampScroll]
  split_ifs <;> omega

/-- For a positive viewport height the clamp always places the selection
inside the visible window. -/
theorem clampScroll_bounds (sel sp lh : Int) (hlh : 0 < lh) :
    clampScroll sel sp lh ≤ sel ∧ sel < clampScroll sel sp lh + lh := by
  constructor <;> (simp only [clampScroll]; split_ifs <;> omega)

theorem draw_container_list_scroll_nonneg (st : LoopState) (h : Int)
    (hsel : 0 ≤ st.selectedIndex) (hsp : 0 ≤ st.scrollPos) :
    0 ≤ (draw_container_list st h).scrollPos := by
  unfold draw_container_list
  split
  · exact hsp
  · split
    · exact hsp
    · exact clampScroll_nonneg st.selectedIndex st.scrollPos (h - 12) hsel hsp

/-- The state-facing effect of `_draw_footer` never touches selection,
scroll, the list or the standing error. -/
theorem draw_footer_fields (st : LoopState) :
    (draw_footer st).selectedIndex = st.selectedIndex ∧
    (draw_footer st).scrollPos = st.scrollPos ∧
    (draw_footer st).containers = st.containers ∧
    (draw_footer st).dockerError = st.dockerError := by
  unfold draw_footer
  split
  · exact ⟨rfl, rfl, rfl, rfl⟩
  · split
    · exact ⟨rfl, rfl, rfl, rfl⟩
    · exact ⟨rfl, rfl, rfl, rfl⟩

/-- The key dispatch never touches the scroll offset, keeps the selection
nonnegative, and never clears a standing error. -/
theorem refreshState_error_kept (st : LoopState) (env : TickEnv)
    (he : st.dockerError.isSome) : (refreshState st env).dockerError = st.dockerError := by
  obtain ⟨e, he2⟩ := Option.isSome_iff_exists.mp he
  show (getDockerContainersModel env.natQ env.now st.dockerError env.enum).1 = st.dockerError
  rw [he2, getDockerContainersModel_some]

theorem key_transition_fields (st : LoopState) (env : TickEnv) (st1 : LoopState)
    (h : key_transition st env = Except.ok st1) :
    st1.scrollPos = st.scrollPos ∧
    (0 ≤ st.selectedIndex → 0 ≤ st1.selectedIndex) ∧
    (st.dockerError.isSome → st1.dockerError = st.dockerError) := by
  cases hk : env.key <;> simp only [key_transition, hk] at h
  case up =>
    cases h
    exact ⟨rfl, fun hs => le_max_left 0 _, fun _ => rfl⟩
  case down =>
    split at h
    · cases h
      exact ⟨rfl, fun hs => hs, fun _ => rfl⟩
    · rename_i hne
      cases h
      refine ⟨rfl, fun hs => ?_, fun _ => rfl⟩
      have hlen := List.length_pos.mpr hne
      show (0 : Int) ≤ min ((st.containers.length : Int) - 1) (st.selectedIndex + 1)
      apply le_min <;> omega
  case keyQ =>
    cases h
    exact ⟨rfl, fun hs => hs, fun _ => rfl⟩
  case keyU =>
    cases h
    exact ⟨rfl, fun hs => hs, fun he => refreshState_error_kept st env he⟩
  case keyS =>
    obtain ⟨p1, p2, p3, p4⟩ := perform_action_fields _ _ _ _ _ h
    exact ⟨p2, fun hs => p1 ▸ hs, fun _ => p4⟩
  case keyX =>
    split at h
    · cases h
      exact ⟨rfl, fun hs => hs, fun _ => rfl⟩
    · obtain ⟨p1, p2, p3, p4⟩ := perform_action_fields _ _ _ _ _ h
      obtain ⟨f1, f2, f3, f4⟩ := draw_footer_fields
        { st with statusMessage := "Stopping container, this may take a minute..." }
      refine ⟨?_, fun hs => ?_, fun _ => ?_⟩
      · rw [p2, f2]
      · rw [p1, f1]
        exact hs
      · rw [p4, f4]
  case keyR =>
    obtain ⟨p1, p2, p3, p4⟩ := perform_action_fields _ _ _ _ _ h
    exact ⟨p2, fun hs => p1 ▸ hs, fun _ => p4⟩
  case keyD =>
    split at h
    · cases h
      exact ⟨rfl, fun hs => hs, fun _ => rfl⟩
    · split at h
      · exact Except.noConfusion h
      · split at h
        · obtain ⟨p1, p2, p3, p4⟩ := perform_action_fields _ _ _ _ _ h
          exact ⟨p2, fun hs => p1 ▸ hs, fun _ => p4⟩
        · cases h
          exact ⟨rfl, fun hs => hs, fun _ => rfl⟩
  case keyN =>
    split at h
    · cases h
      exact ⟨rfl, fun hs => hs, fun _ => rfl⟩
    · split at h
      · exact Except.noConfusion h
      · split at h
        · obtain ⟨p1, p2, p3, p4⟩ := perform_action_fields _ _ _ _ _ h
          exact ⟨p2, fun hs => p1 ▸ hs, fun _ => p4⟩
        · cases h
          exact ⟨rfl, fun hs => hs, fun _ => rfl⟩
  case timeout =>
    cases h
    exact ⟨rfl, fun hs => hs, fun he => refreshState_error_kept st env he⟩
  case other =>
    cases h
    exact ⟨rfl, fun hs => hs, fun _ => rfl⟩

/-- A loop iteration that yields a next state factors as the key dispatch
followed by the two state-touching draw calls. -/
theorem loop_step_shape (st : LoopState) (env : TickEnv) (st' : LoopState)
    (h : loop_step st env = Except.ok (some st')) :
    ∃ st1, key_transition st env = Except.ok st1 ∧
      st' = draw_footer (draw_container_list st1 env.height) := by
  unfold loop_step at h
  split at h
  · exact Option.noConfusion (Except.ok.inj h)
  · cases hkt : key_transition st env with
    | error e =>
      rw [hkt] at h
      exact Except.noConfusion h
    | ok st1 =>
      rw [hkt] at h
      exact ⟨st1, rfl, (Option.some.inj (Except.ok.inj h)).symm⟩

/-- C10: every loop transition that yields a next state preserves
nonnegativity of the selection index (up-navigation clamps at zero, even
on an empty inventory; down-navigation and all other keys keep it
nonnegative) and, through the scroll clamp, nonnegativity of the scroll
offset. -/
theorem c10_indices_nonneg (st : LoopState) (env : TickEnv) (st' : LoopState)
    (h : loop_step st env = Except.ok (some st'))
    (hsel : 0 ≤ st.selectedIndex) (hsp : 0 ≤ st.scrollPos) :
    0 ≤ st'.selectedIndex ∧ 0 ≤ st'.scrollPos := by
  obtain ⟨st1, hkt, hst⟩ := loop_step_shape st env st' h
  obtain ⟨k1, k2, k3⟩ := key_transition_fields st env st1 hkt
  have hsel1 : 0 ≤ st1.selectedIndex := k2 hsel
  have hsp1 : 0 ≤ st1.scrollPos := k1 ▸ hsp
  subst hst
  obtain ⟨d1, d2, d3, d4⟩ := draw_container_list_fields st1 env.height
  obtain ⟨f1, f2, f3, f4⟩ := draw_footer_fields (draw_container_list st1 env.height)
  constructor
  · rw [f1, d1]
    exact hsel1
  · rw [f2]
    exact draw_container_list_scroll_nonneg st1 env.height hsel1 hsp1

/-- Witness for C10: an up-navigation tick on the empty inventory keeps
both indices at zero. -/
theorem c10_indices_nonneg_witness :
    0 ≤ (draw_footer (draw_container_list
      { emptyLoopState with selectedIndex := max 0 (emptyLoopState.selectedIndex - 1) }
      20)).selectedIndex ∧
    0 ≤ (draw_footer (draw_container_list
      { emptyLoopState with selectedIndex := max 0 (emptyLoopState.selectedIndex - 1) }
      20)).scrollPos :=
  c10_indices_nonneg emptyLoopState upEnv
    (draw_footer (draw_container_list
      { emptyLoopState with selectedIndex := max 0 (emptyLoopState.selectedIndex - 1) } 20))
    (by rfl) (by decide) (by decide)

/-- C5: a standing runtime-unavailable error makes every refresh
short-circuit to the empty list with the same error and without
contacting the runtime, and no loop transition ever clears the standing
error. -/
theorem c5_standing_error :
    (∀ (natQ : String → String → QueryOutcome) (now : Int) (e : String)
      (enum : Except String (List ContainerData)),
      getDockerContainersModel natQ now (some e) enum = (some e, [], false)) ∧
    (∀ (st : LoopState) (env : TickEnv) (st' : LoopState),
      loop_step st env = Except.ok (some st') → st.dockerError.isSome →
      st'.dockerError = st.dockerError) := by
  constructor
  · intro natQ now e enum
    rfl
  · intro st env st' h he
    obtain ⟨st1, hkt, hst⟩ := loop_step_shape st env st' h
    obtain ⟨k1, k2, k3⟩ := key_transition_fields st env st1 hkt
    subst hst
    obtain ⟨d1, d2, d3, d4⟩ := draw_container_list_fields st1 env.height
    obtain ⟨f1, f2, f3, f4⟩ := draw_footer_fields (draw_container_list st1 env.height)
    rw [f4, d4]
    exact k3 he

/-- Witness for C5: after an implicit-refresh tick in the failed session
the standing error is still the startup error. -/
theorem c5_standing_error_witness :
    (draw_footer (draw_container_list (refreshState c5ErrState c5TimeoutEnv) 20)).dockerError =
      c5ErrState.dockerError :=
  c5_standing_error.2 c5ErrState c5TimeoutEnv
    (draw_footer (draw_container_list (refreshState c5ErrState c5TimeoutEnv) 20))
    (by rfl) (by rfl)

/-- C7 counterexample: rendering a frame (container list then footer) from
a state with `selectedIndex = 5`, `scrollOffset = 0` and a one-row
viewport changes `scrollOffset` to 5 — the render pass mutates
DashboardState beyond the one-shot status-message clearing. -/
theorem c7_counterexample :
    c7State.scrollPos = 0 ∧
    (draw_footer (draw_container_list c7State 13)).scrollPos = 5 :=
  ⟨rfl, by rfl⟩

/-- C7 amended: rendering a frame leaves `selectedIndex`, the inventory
and the standing error unchanged; it clears `statusMessage` exactly once
after a message containing `Successfully` or `Error` was painted; and —
contrary to the claim — it also updates `scrollOffset`, applying the
visibility clamp (for a non-empty inventory, no standing error and a
positive viewport height the selection ends within the visible
window). -/
theorem c7_render_effects (st : LoopState) (h : Int) :
    (draw_footer (draw_container_list st h)).selectedIndex = st.selectedIndex ∧
    (draw_footer (draw_container_list st h)).containers = st.containers ∧
    (draw_footer (draw_container_list st h)).dockerError = st.dockerError ∧
    (draw_footer (draw_container_list st h)).statusMessage =
      (if st.statusMessage = "" then st.statusMessage
       else if containsSub "Successfully" st.statusMessage ||
              containsSub "Error" st.statusMessage then ""
       else st.statusMessage) ∧
    (st.dockerError = none → st.containers ≠ [] → 0 < h - 12 →
      (draw_footer (draw_container_list st h)).scrollPos ≤ st.selectedIndex ∧
      st.selectedIndex < (draw_footer (draw_container_list st h)).scrollPos + (h - 12)) := by
  obtain ⟨d1, d2, d3, d4⟩ := draw_container_list_fields st h
  obtain ⟨f1, f2, f3, f4⟩ := draw_footer_fields (draw_container_list st h)
  refine ⟨by rw [f1, d1], by rw [f3, d3], by rw [f4, d4], ?_, ?_⟩
  · unfold draw_footer
    rw [d2]
    split_ifs
    · exact d2
    · rfl
    · exact d2
  · intro he hne hlh
    have hs : ¬ st.dockerError.isSome = true := by
      rw [he]
      simp
    have hdr : draw_container_list st h =
        { st with scrollPos := clampScroll st.selectedIndex st.scrollPos (h - 12) } := by
      unfold draw_container_list
      rw [if_neg hs, if_neg hne]
    rw [f2, hdr]
    exact clampScroll_bounds st.selectedIndex st.scrollPos (h - 12) hlh

/-- Witness for C7 amended: the clamp clause evaluated on the C7 state
with a 32-row terminal. -/
theorem c7_render_effects_witness :
    (draw_footer (draw_container_list c7State 32)).scrollPos ≤ c7State.selectedIndex ∧
    c7State.selectedIndex < (draw_footer (draw_container_list c7State 32)).scrollPos + (32 - 12) :=
  (c7_render_effects c7State 32).2.2.2.2 rfl (by decide) (by decide)

/-- The key dispatch returns normally whenever the selection addresses the
current list or the list is empty. -/
theorem key_transition_ok (st : LoopState) (env : TickEnv)
    (hsel : 0 ≤ st.selectedIndex)
    (hin : st.containers = [] ∨ st.selectedIndex < (st.containers.length : Int)) :
    ∃ st1, key_transition st env = Except.ok st1 := by
  cases hk : env.key <;> simp only [key_transition, hk]
  case up => exact ⟨_, rfl⟩
  case down => split <;> exact ⟨_, rfl⟩
  case keyQ => exact ⟨_, rfl⟩
  case keyU => exact ⟨_, rfl⟩
  case keyS => exact perform_action_ok st _ _ _ hsel hin
  case keyX =>
    split
    · exact ⟨_, rfl⟩
    · obtain ⟨f1, f2, f3, f4⟩ := draw_footer_fields
        { st with statusMessage := "Stopping container, this may take a minute..." }
      apply perform_action_ok
      · rw [f1]
        exact hsel
      · rw [f3, f1]
        exact hin
  case keyR => exact perform_action_ok st _ _ _ hsel hin
  case keyD =>
    split
    · exact ⟨_, rfl⟩
    · rename_i hne
      have hlt := hin.resolve_left hne
      obtain ⟨c, hc⟩ := pyIndex_isSome st.containers st.selectedIndex hsel hlt
      rw [hc]
      show ∃ st1,
        (if confirm_action env.confirmInput = true then
          perform_action st ActionName.remove env.actionOutcome ""
        else Except.ok st) = Except.ok st1
      split
      · exact perform_action_ok st _ _ _ hsel hin
      · exact ⟨_, rfl⟩
  case keyN =>
    split
    · exact ⟨_, rfl⟩
    · rename_i hne
      have hlt := hin.resolve_left hne
      obtain ⟨c, hc⟩ := pyIndex_isSome st.containers st.selectedIndex hsel hlt
      rw [hc]
      show ∃ st1,
        (if env.renameInput.trim ≠ "" then
          perform_action st ActionName.rename env.actionOutcome env.renameInput.trim
        else Except.ok st) = Except.ok st1
      split
      · exact perform_action_ok st _ _ _ hsel hin
      · exact ⟨_, rfl⟩
  case timeout => exact ⟨_, rfl⟩
  case other => exact ⟨_, rfl⟩

/-- With the selection addressing the current list (or the list empty),
one loop iteration never raises: the only uncaught exception path through
the loop is an out-of-range selection index at a dispatch key. -/
theorem loop_step_ok_of_selection_in_range (st : LoopState) (env : TickEnv)
    (hsel : 0 ≤ st.selectedIndex)
    (hin : st.containers = [] ∨ st.selectedIndex < (st.containers.length : Int)) :
    ∃ r, loop_step st env = Except.ok r := by
  unfold loop_step
  split
  · exact ⟨none, rfl⟩
  · obtain ⟨st1, h1⟩ := key_transition_ok st env hsel hin
    rw [h1]
    exact ⟨_, rfl⟩

/-- C4 at the failing input: a manual refresh that shrinks the inventory
from five to two containers leaves `selectedIndex` at 4 — outside
`[0, 1]` — instead of clamping it to the new last valid position as the
claim states. -/
theorem c4_refresh_does_not_clamp :
    (loop_step c4State c4Env).toOption.join.map LoopState.selectedIndex = some 4 ∧
    (loop_step c4State c4Env).toOption.join.map (fun s => s.containers.length) = some 2 :=
  ⟨by rfl, by rfl⟩

/-- C6 at the failing input: from a fresh session, navigating down to the
fifth container, refreshing while the runtime reports only one container,
and then pressing the start key raises `IndexError` out of the event loop
— an exception escapes without any quit key or interrupt. -/
theorem c6_indexerror_escapes :
    run_loop c6Init [ downEnv, downEnv, downEnv, downEnv, c6ShrinkEnv, c6StartEnv ] =
      Except.error "IndexError" := by rfl

